import Mathlib

/-!
Shallow embedding of `src/otelfiber/fiber.go` (package `otelfiber`), the
OpenTelemetry middleware for the Fiber web framework, and proofs of the
specification's claims about it.

Modelling choices, stated once:

* The middleware handler returned by `Middleware` is embedded as
  `runMiddleware`, a pure function from the middleware configuration, an
  environment (the behaviour of the downstream chain `c.Next` and of the
  framework's registered error handler) and the request state to a `Result`:
  the ordered list of observable effects the handler performs (span
  operations, metric-instrument operations, user-context writes, context
  cancellation), Go's return/panic outcome, and the final request state.
* Go `defer` semantics are translated explicitly: the `defer span.End()`
  registered at fiber.go line 114 runs on every exit of the handler,
  including a panic raised by `c.Next` (line 120); the deferred teardown
  closure of lines 136–149 is only registered once control reaches line 136,
  so it does not run when `c.Next` panics.  Deferred closures run in LIFO
  order, so the span end is the last event of a normal run.
* Machine integers (`int64` sizes, gauge deltas) are `ℤ`; the `float64`
  duration is `ℚ`.  `time.Since(start)` at line 143 is modelled by the
  parameter `elapsedNs : ℕ` (Go's monotonic clock makes it non-negative);
  `Duration.Microseconds()` is integer division by 1000 truncating toward
  zero, matching Go on non-negative durations.
* `context.WithCancel`, the propagator's `Extract` and `tracer.Start` wrap
  the ambient context; contexts are modelled as the inductive `GoCtx`
  recording that derivation chain.
* The helpers `httpServerMetricAttributesFromRequest`,
  `httpServerTraceAttributesFromRequest` and the `semconv` functions are not
  under `src/`; each is modelled from the spec's words and carries a doc
  comment saying so.  Everything else is translated line by line from
  `src/otelfiber/fiber.go`.
-/

namespace Otelfiber

/-- Go `context.Context` values as derived inside the handler: `base` is the
request's incoming user context (`c.UserContext()`), `withCancel` models
`context.WithCancel` (line 85), `extracted` the propagator's `Extract`
(line 102) and `withSpan` the context returned by `tracer.Start` (line 113). -/
inductive GoCtx
  | base (id : ℕ)
  | withCancel (parent : GoCtx)
  | extracted (parent : GoCtx)
  | withSpan (parent : GoCtx)
  deriving DecidableEq, Repr

/-- Attribute values: OpenTelemetry `attribute.Value`, restricted to the
string and int64 variants this middleware produces. -/
inductive AttrValue
  | str (s : String)
  | int (n : ℤ)
  deriving DecidableEq, Repr

/-- One OpenTelemetry `attribute.KeyValue` tag. -/
structure Attr where
  key : String
  value : AttrValue
  deriving DecidableEq, Repr

/-- Span kinds (`go.opentelemetry.io/otel/trace.SpanKind`); the middleware
only uses `server` (line 106). -/
inductive SpanKind
  | unspecified
  | server
  | client
  deriving DecidableEq, Repr

/-- Span status codes (`go.opentelemetry.io/otel/codes.Code`). -/
inductive SpanStatusCode
  | unset
  | error
  | ok
  deriving DecidableEq, Repr

/-- A `metric.AddOption` produced by `metric.WithAttributes` on one attribute
(fiber.go lines 172–178). -/
structure AddOption where
  attr : Attr
  deriving DecidableEq, Repr

/-- A `metric.RecordOption` produced by `metric.WithAttributes` on one
attribute (fiber.go lines 180–187). -/
structure RecordOption where
  attr : Attr
  deriving DecidableEq, Repr

/-- fiber.go line 22: the key under which the tracer is stored in `c.Locals`. -/
def tracerKey : String := "gofiber-contrib-tracer-fiber"

/-- fiber.go lines 172–178: `attributesToMetricOptions` wraps each attribute
in its own `metric.WithAttributes` add-option. -/
def attributesToMetricOptions (attrs : List Attr) : List AddOption :=
  attrs.map AddOption.mk

/-- fiber.go lines 180–187: `attributesToRecordOptions` wraps each attribute
in its own `metric.WithAttributes` record-option. -/
def attributesToRecordOptions (attrs : List Attr) : List RecordOption :=
  attrs.map RecordOption.mk

/-- The mutable per-request state carried by `*fiber.Ctx` as far as this
middleware reads or writes it: request-phase fields, the response fields the
downstream chain and the error handler write, the matched route template
(`c.Route().Path`, resolved by the router during `c.Next`), and the user
context. -/
structure St where
  method : String
  scheme : String
  host : String
  path : String
  clientAddr : String
  proto : String
  reqBodyLen : ℕ
  respBodyLen : ℕ
  statusCode : ℕ
  routePath : String
  userCtx : GoCtx
  deriving DecidableEq, Repr

/-- Modelled from the spec: `httpServerMetricAttributesFromRequest` lives in a
repository file that is not under `src/`; spec §4.1 step 3 says the
request-phase extraction captures method, scheme, host, target path, client
address and protocol version. -/
def httpServerMetricAttributesFromRequest (c : St) : List Attr :=
  [⟨"http.method", AttrValue.str c.method⟩,
   ⟨"http.scheme", AttrValue.str c.scheme⟩,
   ⟨"net.host.name", AttrValue.str c.host⟩,
   ⟨"http.target", AttrValue.str c.path⟩,
   ⟨"net.sock.peer.addr", AttrValue.str c.clientAddr⟩,
   ⟨"http.flavor", AttrValue.str c.proto⟩]

/-- Modelled from the spec: `httpServerTraceAttributesFromRequest` lives in a
repository file that is not under `src/`; the spec describes one request-phase
extraction (§4.1 step 3) feeding both the span and the metrics. -/
def httpServerTraceAttributesFromRequest (c : St) : List Attr :=
  httpServerMetricAttributesFromRequest c

/-- Modelled from the spec: `semconv.HTTPAttributesFromHTTPStatusCode` is an
external dependency; per §4.1 step 8 the response-phase extraction yields the
status-code attribute. -/
def httpAttributesFromHTTPStatusCode (code : ℕ) : List Attr :=
  [⟨"http.status_code", AttrValue.int code⟩]

/-- The `semconv.HTTPRouteKey.String` attribute (fiber.go line 130). -/
def httpRouteAttr (route : String) : Attr :=
  ⟨"http.route", AttrValue.str route⟩

/-- The `semconv.HTTPResponseContentLengthKey.Int64` attribute
(fiber.go line 154). -/
def httpResponseContentLengthAttr (n : ℤ) : Attr :=
  ⟨"http.response_content_length", AttrValue.int n⟩

/-- Modelled from the spec: `semconv.SpanStatusFromHTTPStatusCodeAndSpanKind`
is an external dependency; per spec §4.1 step 9 and §8, for server-kind spans
the fixed status-code-range rule maps 1xx–3xx to unset, 4xx to unset (client
errors are not server faults) and 5xx to error. -/
def spanStatusFromHTTPStatusCodeAndSpanKind (code : ℕ) (kind : SpanKind) :
    SpanStatusCode × String :=
  if 1 ≤ code / 100 ∧ code / 100 ≤ 3 then (SpanStatusCode.unset, "")
  else if kind = SpanKind.server ∧ code / 100 = 4 then (SpanStatusCode.unset, "")
  else (SpanStatusCode.error, "")

/-- fiber.go lines 167–169: the default span-name formatter returns the
matched route template `ctx.Route().Path`. -/
def defaultSpanNameFormatter (ctx : St) : String :=
  ctx.routePath

/-- fiber.go lines 128–131: the response-phase attributes, the status-code
attributes with the route attribute appended. -/
def responseAttrsOf (c : St) : List Attr :=
  httpAttributesFromHTTPStatusCode c.statusCode ++ [httpRouteAttr c.routePath]

/-- fiber.go line 143: `float64(time.Since(start).Microseconds())/1000` —
whole microseconds (integer division of the nanosecond duration by 1000)
divided by 1000, giving fractional milliseconds. -/
def durationMs (elapsedNs : ℕ) : ℚ :=
  ((elapsedNs / 1000 : ℕ) : ℚ) / 1000

/-- What the downstream chain writes into the request state when it returns:
request body length (the chain may rewrite the body), response body length,
response status code, and the matched route template. -/
structure HandlerEffect where
  reqBodyLen : ℕ
  respBodyLen : ℕ
  statusCode : ℕ
  routePath : String
  deriving DecidableEq, Repr

/-- The behaviour of `c.Next()` (fiber.go line 120) for this request: it
returns nil after writing `eff`, returns the error `e` after writing `eff`,
or panics. -/
inductive NextResult
  | ok (eff : HandlerEffect)
  | err (e : ℕ) (eff : HandlerEffect)
  | panics
  deriving DecidableEq, Repr

/-- The external collaborators of one request: the downstream chain's
behaviour and the framework's registered error handler
(`c.App().Config().ErrorHandler`, fiber.go line 124), which renders an error
into a response, mapping (status code, response body length) to the rendered
(status code, response body length). -/
structure Env where
  next : NextResult
  errorHandler : ℕ → ℕ × ℕ → ℕ × ℕ

/-- The middleware configuration after `Middleware`'s option resolution: only
the span-name formatter is observable per request; `none` means the default
`defaultSpanNameFormatter` (fiber.go lines 79–81). -/
structure Config where
  spanNameFormatter : Option (St → String)

/-- Every observable effect the handler performs, in program order. -/
inductive Event
  | setLocal (key : String)
  | activeRequestsAdd (value : ℤ) (opts : List AddOption)
  | spanStart (name : String) (kind : SpanKind) (attrs : List Attr)
  | setUserContext (ctx : GoCtx)
  | next
  | recordError (e : ℕ)
  | invokeErrorHandler (e : ℕ)
  | spanSetAttributes (attrs : List Attr)
  | spanSetName (name : String)
  | spanSetStatus (code : SpanStatusCode) (msg : String)
  | durationRecord (value : ℚ) (opts : List RecordOption)
  | requestSizeRecord (value : ℤ) (opts : List RecordOption)
  | responseSizeRecord (value : ℤ) (opts : List RecordOption)
  | cancelCtx (ctx : GoCtx)
  | spanEnd
  deriving DecidableEq, Repr

/-- How the handler's Go function exits: a normal `return` carrying the
returned error value, or a propagated panic. -/
inductive Outcome
  | returned (err : Option ℕ)
  | panicked
  deriving DecidableEq, Repr

/-- One run of the middleware handler: its observable effects in order, its
exit, and the final request state. -/
structure Result where
  events : List Event
  outcome : Outcome
  finalSt : St

/-- The state update `c.Next` performs on the request state. -/
def applyEffect (c : St) (eff : HandlerEffect) : St :=
  { c with
    reqBodyLen := eff.reqBodyLen
    respBodyLen := eff.respBodyLen
    statusCode := eff.statusCode
    routePath := eff.routePath }

/-- fiber.go lines 127–161 followed by the deferred closures: the code that
runs once `c.Next` has returned (with the error branch already handled).
`pre` are the events emitted so far and `c` the request state after the
downstream chain and, on the error path, the error handler. In order:
response-attribute extraction (128–131), the size reads (133–134), the body
of lines 151–159, `return nil`, then the deferred closure of lines 136–149,
then the `span.End()` deferred at line 114. -/
def finishRun (cfg : Config) (savedCtx : GoCtx) (responseMetricAttrs : List Attr)
    (requestMetric : List AddOption) (elapsedNs : ℕ) (pre : List Event) (c : St) : Result :=
  let responseAttrs := responseAttrsOf c
  let requestSize : ℤ := c.reqBodyLen
  let responseSize : ℤ := c.respBodyLen
  let fmt := cfg.spanNameFormatter.getD defaultSpanNameFormatter
  let status := spanStatusFromHTTPStatusCodeAndSpanKind c.statusCode SpanKind.server
  let bodyEvents : List Event :=
    [Event.spanSetAttributes (responseAttrs ++ [httpResponseContentLengthAttr responseSize]),
     Event.spanSetName (fmt c),
     Event.spanSetStatus status.1 status.2]
  let responseMetricAttrs2 := responseMetricAttrs ++ responseAttrs
  let responRecord := attributesToRecordOptions responseMetricAttrs2
  let teardown : List Event :=
    [Event.activeRequestsAdd (-1) requestMetric,
     Event.durationRecord (durationMs elapsedNs) responRecord,
     Event.requestSizeRecord requestSize responRecord,
     Event.responseSizeRecord responseSize responRecord,
     Event.setUserContext savedCtx,
     Event.cancelCtx savedCtx]
  { events := pre ++ bodyEvents ++ teardown ++ [Event.spanEnd]
    outcome := Outcome.returned none
    finalSt := { c with userCtx := savedCtx } }

/-- The fiber handler returned by `Middleware` (fiber.go lines 83–162),
applied to one request. `elapsedNs` is the value of `time.Since(start)` in
nanoseconds when line 143 runs. -/
def runMiddleware (cfg : Config) (env : Env) (c0 : St) (elapsedNs : ℕ) : Result :=
  -- line 85
  let savedCtx := GoCtx.withCancel c0.userCtx
  -- line 89
  let requestMetricsAttrs := httpServerMetricAttributesFromRequest c0
  -- line 91
  let requestMetric := attributesToMetricOptions requestMetricsAttrs
  -- lines 94–95: a fresh value copy of the request-phase attributes
  let responseMetricAttrs := requestMetricsAttrs
  -- lines 97–102: header copy and propagator extract
  let ctx := GoCtx.extracted savedCtx
  -- line 112: `utils.CopyString(c.Path())`
  let spanName := c0.path
  -- line 113
  let spanCtx := GoCtx.withSpan ctx
  -- lines 84, 92, 113, 117, 120: events up to and including the `c.Next` call
  let pre : List Event :=
    [Event.setLocal tracerKey,
     Event.activeRequestsAdd 1 requestMetric,
     Event.spanStart spanName SpanKind.server (httpServerTraceAttributesFromRequest c0),
     Event.setUserContext spanCtx,
     Event.next]
  let c1 : St := { c0 with userCtx := spanCtx }
  match env.next with
  | NextResult.panics =>
      -- `c.Next` panics before line 136's defer is registered: only the
      -- `span.End()` deferred at line 114 runs, and the panic propagates.
      { events := pre ++ [Event.spanEnd]
        outcome := Outcome.panicked
        finalSt := c1 }
  | NextResult.ok eff =>
      finishRun cfg savedCtx responseMetricAttrs requestMetric elapsedNs pre
        (applyEffect c1 eff)
  | NextResult.err e eff =>
      -- lines 120–125: record the error on the span, then invoke the
      -- registered error handler, discarding its return value.
      let c2 := applyEffect c1 eff
      let rendered := env.errorHandler e (c2.statusCode, c2.respBodyLen)
      let c3 : St := { c2 with statusCode := rendered.1, respBodyLen := rendered.2 }
      finishRun cfg savedCtx responseMetricAttrs requestMetric elapsedNs
        (pre ++ [Event.recordError e, Event.invokeErrorHandler e]) c3

/-- Event classifiers used by the claim statements. -/
def isSpanStartEv : Event → Bool
  | Event.spanStart _ _ _ => true
  | _ => false

def isSpanEndEv : Event → Bool
  | Event.spanEnd => true
  | _ => false

def isGaugeEv : Event → Bool
  | Event.activeRequestsAdd _ _ => true
  | _ => false

def isGaugeIncEv : Event → Bool
  | Event.activeRequestsAdd 1 _ => true
  | _ => false

def isGaugeDecEv : Event → Bool
  | Event.activeRequestsAdd (-1) _ => true
  | _ => false

def isNextEv : Event → Bool
  | Event.next => true
  | _ => false

def isHistEv : Event → Bool
  | Event.durationRecord _ _ => true
  | Event.requestSizeRecord _ _ => true
  | Event.responseSizeRecord _ _ => true
  | _ => false

def isDurationEv : Event → Bool
  | Event.durationRecord _ _ => true
  | _ => false

def isReqSizeEv : Event → Bool
  | Event.requestSizeRecord _ _ => true
  | _ => false

def isCancelEv : Event → Bool
  | Event.cancelCtx _ => true
  | _ => false

def isSetStatusEv : Event → Bool
  | Event.spanSetStatus _ _ => true
  | _ => false

def isSetNameEv : Event → Bool
  | Event.spanSetName _ => true
  | _ => false

def isErrFlowEv : Event → Bool
  | Event.recordError _ => true
  | Event.invokeErrorHandler _ => true
  | _ => false

/-- The guaranteed-teardown operations the spec's §4.1 step 10 lists: the
gauge decrement, the three histogram recordings and the context
cancellation. (The in-body `SetUserContext` of line 117 is excluded so the
classifier only matches teardown work.) -/
def isTeardownOpEv : Event → Bool
  | Event.activeRequestsAdd (-1) _ => true
  | Event.durationRecord _ _ => true
  | Event.requestSizeRecord _ _ => true
  | Event.responseSizeRecord _ _ => true
  | Event.cancelCtx _ => true
  | _ => false

/-- The gauge delta an event contributes to `http.server.active_requests`. -/
def gaugeDelta : Event → ℤ
  | Event.activeRequestsAdd v _ => v
  | _ => 0

/-- Net change of the `http.server.active_requests` up/down counter across a
list of events. -/
def netGauge (evs : List Event) : ℤ :=
  (evs.map gaugeDelta).sum

/-- Specification helper: the error-flow events the run is expected to emit
for a given `c.Next` behaviour — record the error then invoke the error
handler, nothing otherwise. -/
def expectedErrFlow : NextResult → List Event
  | NextResult.err e _ => [Event.recordError e, Event.invokeErrorHandler e]
  | _ => []

/-- Specification helper: the request body length after the downstream chain
ran (the value fiber.go line 133 reads when `c.Next` returned). -/
def handlerReqBodyLen : NextResult → ℕ → ℕ
  | NextResult.ok eff, _ => eff.reqBodyLen
  | NextResult.err _ eff, _ => eff.reqBodyLen
  | NextResult.panics, d => d

/-- Specification helper: the matched route template after the downstream
chain ran (what `c.Route().Path` returns once the router resolved the
route during `c.Next`). -/
def handlerRoutePath : NextResult → String → String
  | NextResult.ok eff, _ => eff.routePath
  | NextResult.err _ eff, _ => eff.routePath
  | NextResult.panics, d => d

/-- Concrete fixtures for witnesses and counterexamples. -/
def st0 : St :=
  { method := "GET"
    scheme := "http"
    host := "example.com"
    path := "/users/42"
    clientAddr := "10.0.0.7"
    proto := "1.1"
    reqBodyLen := 10
    respBodyLen := 0
    statusCode := 200
    routePath := "/"
    userCtx := GoCtx.base 0 }

def effOk : HandlerEffect :=
  { reqBodyLen := 10, respBodyLen := 120, statusCode := 200, routePath := "/users/:id" }

def effMut : HandlerEffect :=
  { reqBodyLen := 99, respBodyLen := 120, statusCode := 200, routePath := "/users/:id" }

def effErr : HandlerEffect :=
  { reqBodyLen := 10, respBodyLen := 0, statusCode := 200, routePath := "/users/:id" }

def ehId : ℕ → ℕ × ℕ → ℕ × ℕ :=
  fun _ p => p

def eh404 : ℕ → ℕ × ℕ → ℕ × ℕ :=
  fun _ _ => (404, 9)

def envOk : Env := { next := NextResult.ok effOk, errorHandler := ehId }

def envMut : Env := { next := NextResult.ok effMut, errorHandler := ehId }

def envPanic : Env := { next := NextResult.panics, errorHandler := ehId }

def envErr : Env := { next := NextResult.err 7 effErr, errorHandler := eh404 }

def cfg0 : Config := { spanNameFormatter := none }

/-- C2: for every request — whether the downstream chain returns nil, returns
an error or panics — exactly one span is started and exactly one span is
ended, and the span start strictly precedes the span end (the one span-start
event lies strictly before the first span-end event). -/
theorem span_start_end_exactly_once (cfg : Config) (env : Env) (c0 : St) (elapsedNs : ℕ) :
    ((runMiddleware cfg env c0 elapsedNs).events.countP isSpanStartEv = 1)
    ∧ ((runMiddleware cfg env c0 elapsedNs).events.countP isSpanEndEv = 1)
    ∧ (((runMiddleware cfg env c0 elapsedNs).events.takeWhile
          (fun e => !isSpanEndEv e)).countP isSpanStartEv = 1) := by
  cases hn : env.next with
  | ok eff =>
      simp [runMiddleware, hn, finishRun, isSpanStartEv, isSpanEndEv,
        List.countP_cons, List.takeWhile]
  | err e eff =>
      simp [runMiddleware, hn, finishRun, isSpanStartEv, isSpanEndEv,
        List.countP_cons, List.takeWhile]
  | panics =>
      simp [runMiddleware, hn, isSpanStartEv, isSpanEndEv,
        List.countP_cons, List.takeWhile]

/-- C1 (amended): the guaranteed teardown sequence — gauge decrement, the
duration, request-size and response-size histogram recordings, restoration of
the saved user context and cancellation of the derived context, followed by
the span end — runs, in that order, as the final events on every exit path on
which `c.Next` returns (normally or with an error).  When `c.Next` panics the
teardown closure of fiber.go lines 136–149 has not yet been registered and is
skipped (see `teardown_skipped_on_panic_cex`). -/
theorem teardown_suffix_when_next_returns (cfg : Config) (env : Env) (c0 : St)
    (elapsedNs : ℕ) (h : env.next ≠ NextResult.panics) :
    (runMiddleware cfg env c0 elapsedNs).events.reverse.take 7 =
      [Event.spanEnd,
       Event.cancelCtx (GoCtx.withCancel c0.userCtx),
       Event.setUserContext (GoCtx.withCancel c0.userCtx),
       Event.responseSizeRecord ((runMiddleware cfg env c0 elapsedNs).finalSt.respBodyLen : ℤ)
         (attributesToRecordOptions (httpServerMetricAttributesFromRequest c0
            ++ responseAttrsOf (runMiddleware cfg env c0 elapsedNs).finalSt)),
       Event.requestSizeRecord ((runMiddleware cfg env c0 elapsedNs).finalSt.reqBodyLen : ℤ)
         (attributesToRecordOptions (httpServerMetricAttributesFromRequest c0
            ++ responseAttrsOf (runMiddleware cfg env c0 elapsedNs).finalSt)),
       Event.durationRecord (durationMs elapsedNs)
         (attributesToRecordOptions (httpServerMetricAttributesFromRequest c0
            ++ responseAttrsOf (runMiddleware cfg env c0 elapsedNs).finalSt)),
       Event.activeRequestsAdd (-1)
         (attributesToMetricOptions (httpServerMetricAttributesFromRequest c0))] := by
  cases hn : env.next with
  | ok eff =>
      simp [runMiddleware, hn, finishRun, applyEffect, responseAttrsOf]
  | err e eff =>
      simp [runMiddleware, hn, finishRun, applyEffect, responseAttrsOf]
  | panics => exact absurd hn h

/-- Witness for `teardown_suffix_when_next_returns` at a concrete request. -/
theorem teardown_suffix_when_next_returns_witness :
    (envOk.next == NextResult.panics) = false
    ∧ (runMiddleware cfg0 envOk st0 1234567).events.reverse.take 7 =
      [Event.spanEnd,
       Event.cancelCtx (GoCtx.withCancel st0.userCtx),
       Event.setUserContext (GoCtx.withCancel st0.userCtx),
       Event.responseSizeRecord ((runMiddleware cfg0 envOk st0 1234567).finalSt.respBodyLen : ℤ)
         (attributesToRecordOptions (httpServerMetricAttributesFromRequest st0
            ++ responseAttrsOf (runMiddleware cfg0 envOk st0 1234567).finalSt)),
       Event.requestSizeRecord ((runMiddleware cfg0 envOk st0 1234567).finalSt.reqBodyLen : ℤ)
         (attributesToRecordOptions (httpServerMetricAttributesFromRequest st0
            ++ responseAttrsOf (runMiddleware cfg0 envOk st0 1234567).finalSt)),
       Event.durationRecord (durationMs 1234567)
         (attributesToRecordOptions (httpServerMetricAttributesFromRequest st0
            ++ responseAttrsOf (runMiddleware cfg0 envOk st0 1234567).finalSt)),
       Event.activeRequestsAdd (-1)
         (attributesToMetricOptions (httpServerMetricAttributesFromRequest st0))] :=
  ⟨by decide, teardown_suffix_when_next_returns cfg0 envOk st0 1234567 (by decide)⟩

/-- C1 counterexample: for a concrete request whose downstream handler
panics, none of the teardown operations the claim lists (gauge decrement,
the three histogram recordings, context cancellation) occurs — only the
span end deferred at span start runs — so the claimed teardown does not run
on the panic exit path. -/
theorem teardown_skipped_on_panic_cex :
    (runMiddleware cfg0 envPanic st0 0).events.filter isTeardownOpEv = []
    ∧ (runMiddleware cfg0 envPanic st0 0).events.countP isSpanEndEv = 1 := by
  decide

/-- C3 (amended): for every request whose downstream handler returns
(normally or with an error), the net change of `http.server.active_requests`
is exactly 0 — exactly one +1, emitted before the downstream dispatch, and
exactly one −1 after it, both tagged with the request-phase attribute
options.  When the handler panics the −1 is skipped and the net change is +1
(see `active_requests_leak_on_panic_cex`). -/
theorem active_requests_net_zero_when_next_returns (cfg : Config) (env : Env)
    (c0 : St) (elapsedNs : ℕ) (h : env.next ≠ NextResult.panics) :
    netGauge (runMiddleware cfg env c0 elapsedNs).events = 0
    ∧ (runMiddleware cfg env c0 elapsedNs).events.filter isGaugeEv =
        [Event.activeRequestsAdd 1
           (attributesToMetricOptions (httpServerMetricAttributesFromRequest c0)),
         Event.activeRequestsAdd (-1)
           (attributesToMetricOptions (httpServerMetricAttributesFromRequest c0))]
    ∧ ((runMiddleware cfg env c0 elapsedNs).events.takeWhile
          (fun e => !isNextEv e)).filter isGaugeEv =
        [Event.activeRequestsAdd 1
           (attributesToMetricOptions (httpServerMetricAttributesFromRequest c0))] := by
  cases hn : env.next with
  | ok eff =>
      refine ⟨?_, ?_, ?_⟩ <;>
        simp [runMiddleware, hn, finishRun, netGauge, gaugeDelta, isGaugeEv, isNextEv,
          List.takeWhile]
  | err e eff =>
      refine ⟨?_, ?_, ?_⟩ <;>
        simp [runMiddleware, hn, finishRun, netGauge, gaugeDelta, isGaugeEv, isNextEv,
          List.takeWhile]
  | panics => exact absurd hn h

/-- Witness for `active_requests_net_zero_when_next_returns` at a concrete
request. -/
theorem active_requests_net_zero_witness :
    (envOk.next == NextResult.panics) = false
    ∧ (netGauge (runMiddleware cfg0 envOk st0 5).events = 0
    ∧ (runMiddleware cfg0 envOk st0 5).events.filter isGaugeEv =
        [Event.activeRequestsAdd 1
           (attributesToMetricOptions (httpServerMetricAttributesFromRequest st0)),
         Event.activeRequestsAdd (-1)
           (attributesToMetricOptions (httpServerMetricAttributesFromRequest st0))]
    ∧ ((runMiddleware cfg0 envOk st0 5).events.takeWhile
          (fun e => !isNextEv e)).filter isGaugeEv =
        [Event.activeRequestsAdd 1
           (attributesToMetricOptions (httpServerMetricAttributesFromRequest st0))]) :=
  ⟨by decide, active_requests_net_zero_when_next_returns cfg0 envOk st0 5 (by decide)⟩

/-- C3 counterexample: for a concrete request whose downstream handler
panics, the net change of the active-requests gauge across the request's
lifecycle is +1, not 0 — the increment is never matched by a decrement. -/
theorem active_requests_leak_on_panic_cex :
    netGauge (runMiddleware cfg0 envPanic st0 0).events = 1
    ∧ ((netGauge (runMiddleware cfg0 envPanic st0 0).events == 0) = false) := by
  decide

/-- C4: the span status is computed from the status code actually rendered
after the framework's registered error handler ran.  When `c.Next` returns an
error, the error is first recorded on the span as an event, then the
centralized error handler is invoked, and the one `SetStatus` call uses the
resulting rendered status code; the (spec-modelled) semconv mapping sends
100–499 to unset and 500–599 to error for server spans, so an error rendered
as a 404 yields span status unset/ok. -/
theorem span_status_from_rendered_status (cfg : Config) (env : Env) (c0 : St)
    (elapsedNs : ℕ) (e : ℕ) (eff : HandlerEffect) (code : ℕ)
    (hnext : env.next = NextResult.err e eff)
    (h1 : 100 ≤ code) (h2 : code ≤ 599) :
    (spanStatusFromHTTPStatusCodeAndSpanKind code SpanKind.server).1 =
      (if code ≤ 499 then SpanStatusCode.unset else SpanStatusCode.error)
    ∧ (runMiddleware cfg env c0 elapsedNs).finalSt.statusCode =
        (env.errorHandler e (eff.statusCode, eff.respBodyLen)).1
    ∧ (runMiddleware cfg env c0 elapsedNs).events.filter isErrFlowEv =
        [Event.recordError e, Event.invokeErrorHandler e]
    ∧ (runMiddleware cfg env c0 elapsedNs).events.filter isSetStatusEv =
        [Event.spanSetStatus
          (spanStatusFromHTTPStatusCodeAndSpanKind
            ((runMiddleware cfg env c0 elapsedNs).finalSt.statusCode) SpanKind.server).1
          (spanStatusFromHTTPStatusCodeAndSpanKind
            ((runMiddleware cfg env c0 elapsedNs).finalSt.statusCode) SpanKind.server).2] := by
  refine ⟨?_, ?_, ?_, ?_⟩
  · simp only [spanStatusFromHTTPStatusCodeAndSpanKind]
    split_ifs with ha hb hc <;> simp_all <;> omega
  · simp [runMiddleware, hnext, finishRun, applyEffect]
  · simp [runMiddleware, hnext, finishRun, applyEffect, isErrFlowEv]
  · simp [runMiddleware, hnext, finishRun, applyEffect, isSetStatusEv]

/-- Witness for `span_status_from_rendered_status`: a handler error rendered
by the registered error handler as a 404 — the span status is computed from
404, giving unset/ok. -/
theorem span_status_from_rendered_status_witness :
    envErr.next = NextResult.err 7 effErr
    ∧ 100 ≤ 404
    ∧ 404 ≤ 599
    ∧ ((spanStatusFromHTTPStatusCodeAndSpanKind 404 SpanKind.server).1 =
        (if 404 ≤ 499 then SpanStatusCode.unset else SpanStatusCode.error)
    ∧ (runMiddleware cfg0 envErr st0 3).finalSt.statusCode =
        (envErr.errorHandler 7 (effErr.statusCode, effErr.respBodyLen)).1
    ∧ (runMiddleware cfg0 envErr st0 3).events.filter isErrFlowEv =
        [Event.recordError 7, Event.invokeErrorHandler 7]
    ∧ (runMiddleware cfg0 envErr st0 3).events.filter isSetStatusEv =
        [Event.spanSetStatus
          (spanStatusFromHTTPStatusCodeAndSpanKind
            ((runMiddleware cfg0 envErr st0 3).finalSt.statusCode) SpanKind.server).1
          (spanStatusFromHTTPStatusCodeAndSpanKind
            ((runMiddleware cfg0 envErr st0 3).finalSt.statusCode) SpanKind.server).2]) :=
  ⟨rfl, by decide, by decide,
    span_status_from_rendered_status cfg0 envErr st0 3 7 effErr 404 rfl
      (by decide) (by decide)⟩

/-- C5: with the span-name formatter left at its default, the span is started
under the raw request path, and after the downstream chain returns it is
renamed — by the one `SetName` call — to the matched route template that
`c.Next` resolved. -/
theorem span_named_path_then_route (cfg : Config) (env : Env) (c0 : St)
    (elapsedNs : ℕ) (hfmt : cfg.spanNameFormatter = none)
    (h : env.next ≠ NextResult.panics) :
    (runMiddleware cfg env c0 elapsedNs).events.filter isSpanStartEv =
      [Event.spanStart c0.path SpanKind.server (httpServerTraceAttributesFromRequest c0)]
    ∧ (runMiddleware cfg env c0 elapsedNs).events.filter isSetNameEv =
      [Event.spanSetName ((runMiddleware cfg env c0 elapsedNs).finalSt.routePath)]
    ∧ (runMiddleware cfg env c0 elapsedNs).finalSt.routePath =
        handlerRoutePath env.next c0.routePath := by
  cases hn : env.next with
  | ok eff =>
      refine ⟨?_, ?_, ?_⟩ <;>
        simp [runMiddleware, hn, finishRun, applyEffect, hfmt,
          defaultSpanNameFormatter, handlerRoutePath, isSpanStartEv, isSetNameEv]
  | err e eff =>
      refine ⟨?_, ?_, ?_⟩ <;>
        simp [runMiddleware, hn, finishRun, applyEffect, hfmt,
          defaultSpanNameFormatter, handlerRoutePath, isSpanStartEv, isSetNameEv]
  | panics => exact absurd hn h

/-- Witness for `span_named_path_then_route`: a GET to `/users/42` matching
the route template `/users/:id`. -/
theorem span_named_path_then_route_witness :
    cfg0.spanNameFormatter = none
    ∧ (envOk.next == NextResult.panics) = false
    ∧ ((runMiddleware cfg0 envOk st0 5).events.filter isSpanStartEv =
        [Event.spanStart st0.path SpanKind.server (httpServerTraceAttributesFromRequest st0)]
    ∧ (runMiddleware cfg0 envOk st0 5).events.filter isSetNameEv =
        [Event.spanSetName ((runMiddleware cfg0 envOk st0 5).finalSt.routePath)]
    ∧ (runMiddleware cfg0 envOk st0 5).finalSt.routePath =
        handlerRoutePath envOk.next st0.routePath) :=
  ⟨rfl, by decide, span_named_path_then_route cfg0 envOk st0 5 rfl (by decide)⟩

/-- C6: the duration histogram value is recorded exactly once, equals the
elapsed whole microseconds divided by 1000 (fractional milliseconds with
sub-millisecond precision), is non-negative, and — since the wall-clock
elapsed time from middleware entry to the teardown recording contains the
downstream handler's run — is at least the handler's own duration measured
at the same microsecond truncation. -/
theorem duration_fractional_ms_nonneg (cfg : Config) (env : Env) (c0 : St)
    (elapsedNs handlerNs : ℕ) (h : env.next ≠ NextResult.panics)
    (hle : handlerNs ≤ elapsedNs) :
    (runMiddleware cfg env c0 elapsedNs).events.filter isDurationEv =
      [Event.durationRecord (durationMs elapsedNs)
        (attributesToRecordOptions (httpServerMetricAttributesFromRequest c0
          ++ responseAttrsOf (runMiddleware cfg env c0 elapsedNs).finalSt))]
    ∧ durationMs elapsedNs = ((elapsedNs / 1000 : ℕ) : ℚ) / 1000
    ∧ 0 ≤ durationMs elapsedNs
    ∧ durationMs handlerNs ≤ durationMs elapsedNs := by
  refine ⟨?_, rfl, ?_, ?_⟩
  · cases hn : env.next with
    | ok eff =>
        simp [runMiddleware, hn, finishRun, applyEffect, responseAttrsOf, isDurationEv]
    | err e eff =>
        simp [runMiddleware, hn, finishRun, applyEffect, responseAttrsOf, isDurationEv]
    | panics => exact absurd hn h
  · unfold durationMs
    positivity
  · unfold durationMs
    have hq : ((handlerNs / 1000 : ℕ) : ℚ) ≤ ((elapsedNs / 1000 : ℕ) : ℚ) := by
      exact_mod_cast Nat.div_le_div_right hle
    gcongr

/-- Witness for `duration_fractional_ms_nonneg` at a concrete request that
took 2 500 999 ns overall with 1 000 000 ns spent in the handler. -/
theorem duration_fractional_ms_nonneg_witness :
    (envOk.next == NextResult.panics) = false
    ∧ 1000000 ≤ 2500999
    ∧ ((runMiddleware cfg0 envOk st0 2500999).events.filter isDurationEv =
        [Event.durationRecord (durationMs 2500999)
          (attributesToRecordOptions (httpServerMetricAttributesFromRequest st0
            ++ responseAttrsOf (runMiddleware cfg0 envOk st0 2500999).finalSt))]
    ∧ durationMs 2500999 = ((2500999 / 1000 : ℕ) : ℚ) / 1000
    ∧ 0 ≤ durationMs 2500999
    ∧ durationMs 1000000 ≤ durationMs 2500999) :=
  ⟨by decide, by decide,
    duration_fractional_ms_nonneg cfg0 envOk st0 2500999 1000000 (by decide) (by decide)⟩

/-- C7 (amended): the three teardown histogram recordings — duration,
request size and response size — are tagged with the full attribute set
(request-phase attributes followed by the response-phase attributes in a
fixed order), while the active-request gauge decrement is tagged with the
request-phase attribute options only, matching its earlier increment (see
`gauge_decrement_not_full_attrs_cex` for why the claim's "all four" fails). -/
theorem histograms_full_attrs_gauge_dec_request_attrs (cfg : Config) (env : Env)
    (c0 : St) (elapsedNs : ℕ) (h : env.next ≠ NextResult.panics) :
    (runMiddleware cfg env c0 elapsedNs).events.filter isHistEv =
      [Event.durationRecord (durationMs elapsedNs)
         (attributesToRecordOptions (httpServerMetricAttributesFromRequest c0
            ++ responseAttrsOf (runMiddleware cfg env c0 elapsedNs).finalSt)),
       Event.requestSizeRecord ((runMiddleware cfg env c0 elapsedNs).finalSt.reqBodyLen : ℤ)
         (attributesToRecordOptions (httpServerMetricAttributesFromRequest c0
            ++ responseAttrsOf (runMiddleware cfg env c0 elapsedNs).finalSt)),
       Event.responseSizeRecord ((runMiddleware cfg env c0 elapsedNs).finalSt.respBodyLen : ℤ)
         (attributesToRecordOptions (httpServerMetricAttributesFromRequest c0
            ++ responseAttrsOf (runMiddleware cfg env c0 elapsedNs).finalSt))]
    ∧ (runMiddleware cfg env c0 elapsedNs).events.filter isGaugeDecEv =
      [Event.activeRequestsAdd (-1)
         (attributesToMetricOptions (httpServerMetricAttributesFromRequest c0))] := by
  cases hn : env.next with
  | ok eff =>
      refine ⟨?_, ?_⟩ <;>
        simp [runMiddleware, hn, finishRun, applyEffect, responseAttrsOf,
          isHistEv, isGaugeDecEv]
  | err e eff =>
      refine ⟨?_, ?_⟩ <;>
        simp [runMiddleware, hn, finishRun, applyEffect, responseAttrsOf,
          isHistEv, isGaugeDecEv]
  | panics => exact absurd hn h

/-- Witness for `histograms_full_attrs_gauge_dec_request_attrs` at a concrete
request. -/
theorem histograms_full_attrs_witness :
    (envOk.next == NextResult.panics) = false
    ∧ ((runMiddleware cfg0 envOk st0 5).events.filter isHistEv =
      [Event.durationRecord (durationMs 5)
         (attributesToRecordOptions (httpServerMetricAttributesFromRequest st0
            ++ responseAttrsOf (runMiddleware cfg0 envOk st0 5).finalSt)),
       Event.requestSizeRecord ((runMiddleware cfg0 envOk st0 5).finalSt.reqBodyLen : ℤ)
         (attributesToRecordOptions (httpServerMetricAttributesFromRequest st0
            ++ responseAttrsOf (runMiddleware cfg0 envOk st0 5).finalSt)),
       Event.responseSizeRecord ((runMiddleware cfg0 envOk st0 5).finalSt.respBodyLen : ℤ)
         (attributesToRecordOptions (httpServerMetricAttributesFromRequest st0
            ++ responseAttrsOf (runMiddleware cfg0 envOk st0 5).finalSt))]
    ∧ (runMiddleware cfg0 envOk st0 5).events.filter isGaugeDecEv =
      [Event.activeRequestsAdd (-1)
         (attributesToMetricOptions (httpServerMetricAttributesFromRequest st0))]) :=
  ⟨by decide, histograms_full_attrs_gauge_dec_request_attrs cfg0 envOk st0 5 (by decide)⟩

/-- C7 counterexample: for a concrete request, the teardown gauge decrement
is tagged with the request-phase attribute options only, whose underlying
attribute list differs from the full request+response attribute set the claim
demands for all four teardown metric operations. -/
theorem gauge_decrement_not_full_attrs_cex :
    (runMiddleware cfg0 envOk st0 0).events.filter isGaugeDecEv =
      [Event.activeRequestsAdd (-1)
        (attributesToMetricOptions (httpServerMetricAttributesFromRequest st0))]
    ∧ (((attributesToMetricOptions (httpServerMetricAttributesFromRequest st0)).map
          AddOption.attr
        == (httpServerMetricAttributesFromRequest st0
            ++ responseAttrsOf (runMiddleware cfg0 envOk st0 0).finalSt)) = false) := by
  decide

/-- C8 (amended): the value recorded into the request-size histogram is the
request body length as read at fiber.go line 133, after the downstream
handler has returned (post-handler), and the recording happens once, in the
teardown. -/
theorem request_size_posthandler (cfg : Config) (env : Env) (c0 : St)
    (elapsedNs : ℕ) (h : env.next ≠ NextResult.panics) :
    (runMiddleware cfg env c0 elapsedNs).events.filter isReqSizeEv =
      [Event.requestSizeRecord ((runMiddleware cfg env c0 elapsedNs).finalSt.reqBodyLen : ℤ)
        (attributesToRecordOptions (httpServerMetricAttributesFromRequest c0
          ++ responseAttrsOf (runMiddleware cfg env c0 elapsedNs).finalSt))]
    ∧ (runMiddleware cfg env c0 elapsedNs).finalSt.reqBodyLen =
        handlerReqBodyLen env.next c0.reqBodyLen := by
  cases hn : env.next with
  | ok eff =>
      refine ⟨?_, ?_⟩ <;>
        simp [runMiddleware, hn, finishRun, applyEffect, responseAttrsOf,
          isReqSizeEv, handlerReqBodyLen]
  | err e eff =>
      refine ⟨?_, ?_⟩ <;>
        simp [runMiddleware, hn, finishRun, applyEffect, responseAttrsOf,
          isReqSizeEv, handlerReqBodyLen]
  | panics => exact absurd hn h

/-- Witness for `request_size_posthandler` at a concrete request. -/
theorem request_size_posthandler_witness :
    (envMut.next == NextResult.panics) = false
    ∧ ((runMiddleware cfg0 envMut st0 5).events.filter isReqSizeEv =
      [Event.requestSizeRecord ((runMiddleware cfg0 envMut st0 5).finalSt.reqBodyLen : ℤ)
        (attributesToRecordOptions (httpServerMetricAttributesFromRequest st0
          ++ responseAttrsOf (runMiddleware cfg0 envMut st0 5).finalSt))]
    ∧ (runMiddleware cfg0 envMut st0 5).finalSt.reqBodyLen =
        handlerReqBodyLen envMut.next st0.reqBodyLen) :=
  ⟨by decide, request_size_posthandler cfg0 envMut st0 5 (by decide)⟩

/-- C8 counterexample: a concrete request arrives with a 10-byte body and the
downstream handler rewrites the body to 99 bytes; the request-size histogram
records 99, the post-handler length, not the pre-handler length 10 the claim
states. -/
theorem request_size_not_prehandler_cex :
    st0.reqBodyLen = 10
    ∧ (runMiddleware cfg0 envMut st0 0).events.filter isReqSizeEv =
      [Event.requestSizeRecord 99
        (attributesToRecordOptions (httpServerMetricAttributesFromRequest st0
          ++ responseAttrsOf (runMiddleware cfg0 envMut st0 0).finalSt))]
    ∧ (((99 : ℤ) == (10 : ℤ)) = false) := by
  decide

/-- C9: whenever `c.Next` returns — nil or a non-nil error — the middleware
handler itself returns nil: a downstream error is consumed (recorded on the
span, then handed to the framework's registered error handler) and never
propagated to the middleware's own caller. -/
theorem middleware_returns_nil (cfg : Config) (env : Env) (c0 : St)
    (elapsedNs : ℕ) (h : env.next ≠ NextResult.panics) :
    (runMiddleware cfg env c0 elapsedNs).outcome = Outcome.returned none
    ∧ (runMiddleware cfg env c0 elapsedNs).events.filter isErrFlowEv =
        expectedErrFlow env.next := by
  cases hn : env.next with
  | ok eff =>
      refine ⟨?_, ?_⟩ <;>
        simp [runMiddleware, hn, finishRun, applyEffect, isErrFlowEv, expectedErrFlow]
  | err e eff =>
      refine ⟨?_, ?_⟩ <;>
        simp [runMiddleware, hn, finishRun, applyEffect, isErrFlowEv, expectedErrFlow]
  | panics => exact absurd hn h

/-- Witness for `middleware_returns_nil`: a request whose downstream handler
returns error 7 — the middleware still returns nil and the error flow ran. -/
theorem middleware_returns_nil_witness :
    (envErr.next == NextResult.panics) = false
    ∧ ((runMiddleware cfg0 envErr st0 5).outcome = Outcome.returned none
    ∧ (runMiddleware cfg0 envErr st0 5).events.filter isErrFlowEv =
        expectedErrFlow envErr.next) :=
  ⟨by decide, middleware_returns_nil cfg0 envErr st0 5 (by decide)⟩

/-- C10: the gauge increment and the gauge decrement carry exactly the same
attribute options — those built from the request-phase attributes — and
appending the response-phase attributes for the histogram recordings leaves
the request-phase attribute list intact as the unchanged prefix of the full
set (the copied slice is extended; the original is untouched). -/
theorem gauge_inc_dec_same_options (cfg : Config) (env : Env) (c0 : St)
    (elapsedNs : ℕ) (h : env.next ≠ NextResult.panics) :
    (runMiddleware cfg env c0 elapsedNs).events.filter isGaugeIncEv =
      [Event.activeRequestsAdd 1
        (attributesToMetricOptions (httpServerMetricAttributesFromRequest c0))]
    ∧ (runMiddleware cfg env c0 elapsedNs).events.filter isGaugeDecEv =
      [Event.activeRequestsAdd (-1)
        (attributesToMetricOptions (httpServerMetricAttributesFromRequest c0))]
    ∧ (httpServerMetricAttributesFromRequest c0
        ++ responseAttrsOf (runMiddleware cfg env c0 elapsedNs).finalSt).take
          (httpServerMetricAttributesFromRequest c0).length =
        httpServerMetricAttributesFromRequest c0 := by
  refine ⟨?_, ?_, List.take_left _ _⟩ <;>
    cases hn : env.next with
    | ok eff =>
        simp [runMiddleware, hn, finishRun, applyEffect, isGaugeIncEv, isGaugeDecEv]
    | err e eff =>
        simp [runMiddleware, hn, finishRun, applyEffect, isGaugeIncEv, isGaugeDecEv]
    | panics => exact absurd hn h

/-- Witness for `gauge_inc_dec_same_options` at a concrete request. -/
theorem gauge_inc_dec_same_options_witness :
    (envOk.next == NextResult.panics) = false
    ∧ ((runMiddleware cfg0 envOk st0 5).events.filter isGaugeIncEv =
      [Event.activeRequestsAdd 1
        (attributesToMetricOptions (httpServerMetricAttributesFromRequest st0))]
    ∧ (runMiddleware cfg0 envOk st0 5).events.filter isGaugeDecEv =
      [Event.activeRequestsAdd (-1)
        (attributesToMetricOptions (httpServerMetricAttributesFromRequest st0))]
    ∧ (httpServerMetricAttributesFromRequest st0
        ++ responseAttrsOf (runMiddleware cfg0 envOk st0 5).finalSt).take
          (httpServerMetricAttributesFromRequest st0).length =
        httpServerMetricAttributesFromRequest st0) :=
  ⟨by decide, gauge_inc_dec_same_options cfg0 envOk st0 5 (by decide)⟩

end Otelfiber
